import Mathlib

/-!
Shallow embedding of the Cornwall multi-track session tool
(src/cornwall/state.py, src/cornwall/sox_effects.py, src/scripts/play.py,
src/scripts/fx.py) and proofs about its effect-chain compiler, active-track
resolver, render/mixdown pipeline and playback lifecycle manager.

JSON-borne scalar values (effect parameters) are only ever stringified by the
code under study (Python `str`), so they are embedded as `JVal`, carrying the
exact string `str` would produce for them.  Python floats appear only in track
volume / trim positions, where the code compares them to literals (`1.0`, the
truthiness test against `0.0`) and stringifies them; they are embedded as
`PyFloat`, an exact rational value paired with its `str` rendering.
-/

/-- A JSON scalar as stored in effects.json: numeric or string.  A numeric
value is carried by the string Python `str()` yields for it (the compiler in
sox_effects.py only ever stringifies parameter values, never computes with
them). -/
inductive JVal where
  | jnum (s : String)
  | jstr (s : String)
deriving DecidableEq

/-- Python `str()` on a JSON scalar. -/
def pyStr : JVal → String
  | .jnum s => s
  | .jstr s => s

/-- A Python float: exact rational value plus its `str()` rendering.  The code
under study only compares volumes/offsets against the literals 1.0 and 0.0 and
stringifies them. -/
structure PyFloat where
  str : String
  val : ℚ
deriving DecidableEq

/-- One effect of a chain, as stored in effects.json: `{"name": ..,
"params": {..}}`; the parameter map preserves insertion order (JSON object
order), embedded as an association list. -/
structure Effect where
  name : String
  params : List (String × JVal)
deriving DecidableEq

/-- A track record, as stored in tracks.json (state.add_track): id, name,
type, source (nullable), volume, pan, mute, solo. -/
structure Track where
  id : Int
  name : String
  type : String
  source : Option String
  volume : PyFloat
  pan : PyFloat
  mute : Bool
  solo : Bool
deriving DecidableEq

/-- Python truthiness of a stored `source` field: `None` and the empty string
are falsy, any other string is truthy. -/
def truthySource : Option String → Bool
  | none => false
  | some s => s ≠ ""

/-- The string Python interpolates for a source field (call sites are guarded
so that `none` never reaches a command line). -/
def srcStr : Option String → String
  | none => ""
  | some s => s

/-- `params.get(key, default)` on the ordered parameter map. -/
def pget (params : List (String × JVal)) (key : String) (default : JVal) : JVal :=
  match params.lookup key with
  | some v => v
  | none => default

/-- `key in params` on the ordered parameter map. -/
def hasParam (params : List (String × JVal)) (key : String) : Bool :=
  (params.lookup key).isSome

/-- `str(params[key])` guarded by `key in params`: the token list contributed
by an optional parameter. -/
def optTok (params : List (String × JVal)) (key : String) : List String :=
  match params.lookup key with
  | some v => [pyStr v]
  | none => []

/-- The tokens one effect contributes to the SoX argument list: the body of
the `for fx in effects` loop of sox_effects.build_sox_effects, branch for
branch (the second `lowpass`/`highpass` branches of the source are kept even
though the identical earlier branches shadow them). -/
def compile_effect (fx : Effect) : List String :=
  let name := fx.name
  let params := fx.params
  if name = "reverb" then
    "reverb" :: (optTok params "reverberance" ++ optTok params "hf_damping"
      ++ optTok params "room_scale")
  else if name = "delay" then
    ["echo", pyStr (pget params "gain_in" (.jnum "0.8")),
     pyStr (pget params "gain_out" (.jnum "0.9")),
     pyStr (pget params "delay_ms" (.jnum "500")),
     pyStr (pget params "decay" (.jnum "0.3"))]
  else if name = "chorus" then
    ["chorus", pyStr (pget params "gain_in" (.jnum "0.7")),
     pyStr (pget params "gain_out" (.jnum "0.9")),
     pyStr (pget params "delay_ms" (.jnum "55")),
     pyStr (pget params "decay" (.jnum "0.4")),
     pyStr (pget params "speed" (.jnum "0.25")),
     "-" ++ pyStr (pget params "shape" (.jstr "s"))]
  else if name = "flanger" then
    ["flanger"]
  else if name = "phaser" then
    ["phaser"]
  else if name = "tremolo" then
    "tremolo" :: pyStr (pget params "speed" (.jnum "6")) :: optTok params "depth"
  else if name = "overdrive" then
    ["overdrive", pyStr (pget params "gain" (.jnum "20"))]
  else if name = "compressor" then
    ["compand", pyStr (pget params "attack_decay" (.jstr "0.3,1")),
     pyStr (pget params "transfer" (.jstr "6:-70,-60,-20"))]
  else if name = "eq" then
    ["equalizer", pyStr (pget params "frequency" (.jnum "1000")),
     pyStr (pget params "width" (.jstr "1q")),
     pyStr (pget params "gain" (.jnum "0"))]
  else if name = "bass" then
    ["bass", pyStr (pget params "gain" (.jnum "0"))]
  else if name = "treble" then
    ["treble", pyStr (pget params "gain" (.jnum "0"))]
  else if name = "lowpass" then
    ["lowpass", pyStr (pget params "frequency" (.jnum "3000"))]
  else if name = "highpass" then
    ["highpass", pyStr (pget params "frequency" (.jnum "300"))]
  else if name = "pitch" then
    ["pitch", pyStr (pget params "cents" (.jnum "0"))]
  else if name = "tempo" then
    ["tempo", pyStr (pget params "factor" (.jnum "1.0"))]
  else if name = "norm" then
    "norm" :: optTok params "level"
  else if name = "fade" then
    ["fade", pyStr (pget params "type" (.jstr "t")),
     pyStr (pget params "fade_in" (.jnum "0")),
     pyStr (pget params "stop" (.jnum "0")),
     pyStr (pget params "fade_out" (.jnum "0"))]
  else if name = "lowpass" then
    ["lowpass", pyStr (pget params "frequency" (.jnum "3000"))]
  else if name = "highpass" then
    ["highpass", pyStr (pget params "frequency" (.jnum "300"))]
  else
    name :: params.map (fun p => pyStr p.2)

/-- sox_effects.build_sox_effects: the loop appends each effect's tokens in
chain order into one argument list. -/
def build_sox_effects : List Effect → List String
  | [] => []
  | fx :: rest => compile_effect fx ++ build_sox_effects rest

/-- The effect names handled by a dedicated branch of
build_sox_effects (everything else takes the pass-through branch). -/
def catalogNames : List String :=
  ["reverb", "delay", "chorus", "flanger", "phaser", "tremolo", "overdrive",
   "compressor", "eq", "bass", "treble", "lowpass", "highpass", "pitch",
   "tempo", "norm", "fade"]

/-- state.get_active_tracks: if any track is soloed (and has a source), only
those; otherwise all unmuted tracks with a source. -/
def get_active_tracks (tracks : List Track) : List Track :=
  let solo_tracks := tracks.filter (fun t => t.solo && truthySource t.source)
  if solo_tracks.isEmpty then
    tracks.filter (fun t => !t.mute && truthySource t.source)
  else
    solo_tracks

/-- One external-processor invocation issued by play.py, tagged by which call
site built it; `toCmd` recovers the exact argument vector passed to
subprocess. -/
inductive SoxInv where
  | renderTrack (input output vol : String) (fx : List String)
  | combine (inputs : List String) (output : String)
  | playFile (path : String)
deriving DecidableEq

/-- The literal argument vector of an invocation: `_render_track_to_file`
builds `["sox", source, output, "vol", str(volume)] + effects`; the mixdown
combine step builds `["sox", "-m"] + tmp_files + [output]`; post-render
playback builds `["play", output]`. -/
def SoxInv.toCmd : SoxInv → List String
  | .renderTrack input output vol fx => ["sox", input, output, "vol", vol] ++ fx
  | .combine inputs output => ["sox", "-m"] ++ inputs ++ [output]
  | .playFile path => ["play", path]

/-- Is this a render-track invocation? -/
def SoxInv.isRender : SoxInv → Bool
  | .renderTrack .. => true
  | _ => false

/-- Is this a combine invocation? -/
def SoxInv.isCombine : SoxInv → Bool
  | .combine .. => true
  | _ => false

/-- The file an invocation writes, if any. -/
def SoxInv.target : SoxInv → Option String
  | .renderTrack _ output _ _ => some output
  | .combine _ output => some output
  | .playFile _ => none

/-- MixOutcome model for the external processor: `ok i` is whether invocation
`i` exits with status 0; when it fails, `writes i` is whether it nevertheless
left (partial) data at its target path before failing. -/
structure Oracle where
  ok : SoxInv → Bool
  writes : SoxInv → Bool

/-- The command `_render_track_to_file(track, output)` runs:
`["sox", track["source"], output, "vol", str(track["volume"])]` plus the
compiled effect chain. -/
def render_track_to_file_cmd (t : Track) (chain : List Effect) (output : String) :
    List String :=
  ["sox", srcStr t.source, output, "vol", t.volume.str] ++ build_sox_effects chain

/-- `_render_track_to_file` as a tagged invocation; `chains` maps a track id
to its stored effect chain (state.get_track_effects). -/
def trackRenderInv (chains : Int → List Effect) (t : Track) (output : String) : SoxInv :=
  .renderTrack (srcStr t.source) output t.volume.str (build_sox_effects (chains t.id))

/-- `os.path.join(tmpdir, f"track_{t['id']}.wav")`. -/
def tmpName (tmpdir : String) (t : Track) : String :=
  tmpdir ++ "/track_" ++ toString t.id ++ ".wav"

/-- Is `path` inside directory-prefix `dir`?  (Scope of `shutil.rmtree`.) -/
def underDir (dir path : String) : Bool :=
  dir.data.isPrefixOf path.data

/-- `tempfile.TemporaryDirectory.__exit__`: removes the whole tree under
`tmpdir` on every exit from the `with` block, normal or exceptional; files
outside `tmpdir` survive. -/
def rmtreeSweep (tmpdir : String) (files : List String) : List String :=
  files.filter (fun f => !(underDir tmpdir f))

/-- State of the final output path after the pipeline returns. -/
inductive FileState where
  | untouched
  | halfWritten
  | complete
deriving DecidableEq

/-- How cmd_mix returned: normally, via the no-active-tracks exit, or with a
subprocess.CalledProcessError from the named invocation (the concrete form of
the spec's RenderFailedError). -/
inductive MixOutcome where
  | success
  | noActive
  | renderFailed (i : SoxInv)
deriving DecidableEq

/-- The per-track render loop of the multi-track branch of cmd_mix: renders
each active track to its temporary file, stopping at the first failing
invocation (check=True raises and aborts the loop).  Returns the invocations
issued, the temp files that came into existence (a successful render writes
its file; a failing one leaves one iff the oracle says it wrote), and the
failing invocation if any. -/
def render_stage (o : Oracle) (chains : Int → List Effect) (tmpdir : String) :
    List Track → List SoxInv × List String × Option SoxInv
  | [] => ([], [], none)
  | t :: rest =>
    let inv := trackRenderInv chains t (tmpName tmpdir t)
    let created := if o.ok inv || o.writes inv then [tmpName tmpdir t] else []
    if o.ok inv then
      let r := render_stage o chains tmpdir rest
      (inv :: r.1, created ++ r.2.1, r.2.2)
    else
      ([inv], created, some inv)

/-- Result of one cmd_mix run: invocations issued in order, how it returned,
the pipeline-owned temporary files still existing after the return, and the
state of the final output path. -/
structure MixResult where
  invs : List SoxInv
  outcome : MixOutcome
  tmpLeft : List String
  finalFile : FileState
deriving DecidableEq

/-- play.py cmd_mix over resolved inputs: `tracks` is the stored track list,
`chains` the stored effect chains, `output` the resolved final path
(caller override or project mix.wav), `tmpdir` the name
tempfile.TemporaryDirectory picks, `no_play` the --no-play flag (cmd_render
forces it).  Zero active tracks exits before any invocation; one active track
renders straight to `output`; otherwise every active track is rendered to its
temp file inside the `with TemporaryDirectory` block and a single combine
writes `output`; the block's exit sweeps `tmpdir` on every path. -/
def cmd_mix_run (o : Oracle) (tracks : List Track) (chains : Int → List Effect)
    (tmpdir output : String) (no_play : Bool) : MixResult :=
  match get_active_tracks tracks with
  | [] => ⟨[], .noActive, [], .untouched⟩
  | [t] =>
    let inv := trackRenderInv chains t output
    if o.ok inv then
      ⟨[inv] ++ (if no_play then [] else [.playFile output]), .success, [], .complete⟩
    else
      ⟨[inv], .renderFailed inv, [],
        if o.writes inv then .halfWritten else .untouched⟩
  | t1 :: t2 :: rest =>
    let stage := render_stage o chains tmpdir (t1 :: t2 :: rest)
    let tmpLeft := rmtreeSweep tmpdir stage.2.1
    match stage.2.2 with
    | some i => ⟨stage.1, .renderFailed i, tmpLeft, .untouched⟩
    | none =>
      let comb := SoxInv.combine ((t1 :: t2 :: rest).map (tmpName tmpdir)) output
      if o.ok comb then
        ⟨stage.1 ++ [comb] ++ (if no_play then [] else [.playFile output]),
          .success, tmpLeft, .complete⟩
      else
        ⟨stage.1 ++ [comb], .renderFailed comb, tmpLeft,
          if o.writes comb then .halfWritten else .untouched⟩

/-- Environment of the playback lifecycle manager: the contents of
state/.playback.pid (absent or some text) and which pids a zero-effect
`os.kill(pid, 0)` probe reaches (false covers both ProcessLookupError and
PermissionError). -/
structure Sys where
  pidFile : Option String
  probeOk : Int → Bool

/-- Observable side effects of the lifecycle commands. -/
inductive PAction where
  | sigterm (pid : Int)
  | pkillChildren (pid : Int)
  | spawnLoop (args : List String)
deriving DecidableEq

/-- Python `str.strip()`: whitespace removed from both ends. -/
def pyStrip (s : String) : String :=
  ⟨((s.data.dropWhile Char.isWhitespace).reverse.dropWhile Char.isWhitespace).reverse⟩

/-- Decimal digit accumulator for `pyInt`. -/
def digitsToNat (cs : List Char) (acc : Nat) : Option Nat :=
  match cs with
  | [] => some acc
  | c :: rest =>
    if c.isDigit then digitsToNat rest (acc * 10 + (c.toNat - '0'.toNat))
    else none

/-- Python `int(text)` on already-stripped text: an optional sign followed by
one or more decimal digits; anything else raises ValueError (None here). -/
def pyInt (s : String) : Option Int :=
  match s.data with
  | [] => none
  | '-' :: rest =>
    if rest = [] then none else (digitsToNat rest 0).map (fun n => -(n : Int))
  | '+' :: rest =>
    if rest = [] then none else (digitsToNat rest 0).map (fun n => (n : Int))
  | cs => (digitsToNat cs 0).map (fun n => (n : Int))

/-- state.get_playback_pid: absent file gives None; otherwise
`int(text.strip())` then an `os.kill(pid, 0)` probe; on ValueError,
ProcessLookupError or PermissionError the pid file is unlinked and None is
returned. -/
def get_playback_pid (s : Sys) : Option Int × Sys :=
  match s.pidFile with
  | none => (none, s)
  | some text =>
    match pyInt (pyStrip text) with
    | none => (none, { s with pidFile := none })
    | some pid =>
      if s.probeOk pid then (some pid, s)
      else (none, { s with pidFile := none })

/-- What play.py status prints: `Playing (pid ..)` or `Not playing` (the
spec's Idle). -/
inductive PbStatus where
  | playing (pid : Int)
  | idle
deriving DecidableEq

/-- play.py cmd_status: report from get_playback_pid, whose stale-handle
purge is its only state effect. -/
def cmd_status_run (s : Sys) : PbStatus × Sys :=
  let r := get_playback_pid s
  match r.1 with
  | some pid => (.playing pid, r.2)
  | none => (.idle, r.2)

/-- What play.py stop prints. -/
inductive StopReport where
  | stopped (pid : Int)
  | nothingPlaying
deriving DecidableEq

/-- play.py cmd_stop: a live pid gets SIGTERM plus `pkill -P pid` for its
direct children and the handle is cleared; otherwise "Nothing playing".  (The
source's ProcessLookupError arm between the probe and the kill is a race that
the sequential model makes unreachable.) -/
def cmd_stop_run (s : Sys) : StopReport × List PAction × Sys :=
  let r := get_playback_pid s
  match r.1 with
  | some pid =>
    (.stopped pid, [.sigterm pid, .pkillChildren pid], { r.2 with pidFile := none })
  | none => (.nothingPlaying, [], r.2)

/-- What play.py loop reports. -/
inductive LoopReport where
  | looping (pid : Int)
  | errNoSource
deriving DecidableEq

/-- Result of one cmd_loop run. -/
structure LoopResult where
  report : LoopReport
  actions : List PAction
  sys : Sys

/-- play.py cmd_loop on a track target: first stop any existing playback
(SIGTERM the persisted pid if its probe succeeds, clear the pid file), then
require the track's source, spawn `play <source> repeat 999` detached, and
persist the new pid (`newPid` is the pid the OS hands Popen).  The mix target
differs only by rendering the mix between those two halves. -/
def cmd_loop_track_run (s : Sys) (track : Track) (newPid : Int) : LoopResult :=
  let r := get_playback_pid s
  let s1 := match r.1 with
    | some _ => { r.2 with pidFile := none }
    | none => r.2
  let pre := match r.1 with
    | some pid => [PAction.sigterm pid]
    | none => []
  if truthySource track.source then
    { report := .looping newPid,
      actions := pre ++ [.spawnLoop ["play", srcStr track.source, "repeat", "999"]],
      sys := { s1 with pidFile := some (toString newPid) } }
  else
    { report := .errNoSource, actions := pre, sys := s1 }

/-- play.py cmd_track without trim arguments applies volume only away from
unity: `["play", source]`, then `["vol", str(volume)]` iff volume != 1.0,
then the compiled chain, then trim/duration when truthy. -/
def cmd_track_cmd (t : Track) (chain : List Effect) (start duration : Option PyFloat) :
    List String :=
  ["play", srcStr t.source]
    ++ (if t.volume.val ≠ 1 then ["vol", t.volume.str] else [])
    ++ build_sox_effects chain
    ++ (match start with
        | some st =>
          if st.val ≠ 0 then
            "trim" :: st.str ::
              (match duration with
               | some d => if d.val ≠ 0 then [d.str] else []
               | none => [])
          else []
        | none => [])

/-- fx.py cmd_preview: same shape as cmd_track with no trim. -/
def cmd_preview_cmd (t : Track) (chain : List Effect) : List String :=
  ["play", srcStr t.source]
    ++ (if t.volume.val ≠ 1 then ["vol", t.volume.str] else [])
    ++ build_sox_effects chain

/-! Concrete fixtures used by witness theorems. -/

/-- Unity-volume audio track with a source, neither muted nor soloed. -/
def demoTrack1 : Track :=
  ⟨1, "drums", "audio", some "drums.wav", ⟨"1.0", 1⟩, ⟨"0.0", 0⟩, false, false⟩

/-- Soloed track with a source and non-unity volume. -/
def demoTrack2 : Track :=
  ⟨2, "bass", "audio", some "bass.wav", ⟨"0.5", 1/2⟩, ⟨"0.0", 0⟩, false, true⟩

/-- Muted track with no source. -/
def demoTrack3 : Track :=
  ⟨3, "pad", "synth", none, ⟨"1.0", 1⟩, ⟨"0.0", 0⟩, true, false⟩

/-- Second plain active track. -/
def demoTrack4 : Track :=
  ⟨4, "gtr", "audio", some "gtr.wav", ⟨"1.0", 1⟩, ⟨"0.0", 0⟩, false, false⟩

/-- Third plain active track. -/
def demoTrack5 : Track :=
  ⟨5, "keys", "audio", some "keys.wav", ⟨"0.8", 4/5⟩, ⟨"0.0", 0⟩, false, false⟩

/-- A project with one soloed track. -/
def demoTracks : List Track := [demoTrack1, demoTrack2, demoTrack3]

/-- A project whose resolver yields exactly one active track. -/
def singleActive : List Track := [demoTrack1, demoTrack3]

/-- A project whose resolver yields three active tracks. -/
def multiActive : List Track := [demoTrack1, demoTrack4, demoTrack5]

/-- Empty stored effect chains. -/
def demoChains : Int → List Effect := fun _ => []

/-- External processor that always succeeds. -/
def okOracle : Oracle := ⟨fun _ => true, fun _ => true⟩

/-- External processor that always fails after partially writing its target. -/
def crashOracle : Oracle := ⟨fun _ => false, fun _ => true⟩

/-- Persisted handle for pid 42 whose process is alive. -/
def liveSys : Sys := ⟨some "42", fun _ => true⟩

/-- Persisted handle for pid 99 whose process is gone. -/
def staleSys : Sys := ⟨some "99", fun _ => false⟩

/-- No persisted handle. -/
def emptySys : Sys := ⟨none, fun _ => false⟩

/-! Theorems. -/

/-- C1: the resolver returns exactly the soloed tracks with a source when any
exist, else exactly the unmuted tracks with a source; a track with an absent
(or empty) source never appears; storage order is preserved (the result is a
sublist of the stored list). -/
theorem c1_active_track_resolution (tracks : List Track) :
    (tracks.filter (fun t => t.solo && truthySource t.source) ≠ [] →
      get_active_tracks tracks =
        tracks.filter (fun t => t.solo && truthySource t.source)) ∧
    (tracks.filter (fun t => t.solo && truthySource t.source) = [] →
      get_active_tracks tracks =
        tracks.filter (fun t => !t.mute && truthySource t.source)) ∧
    (∀ t ∈ get_active_tracks tracks, truthySource t.source = true) ∧
    (get_active_tracks tracks).Sublist tracks := by
  refine ⟨?_, ?_, ?_, ?_⟩
  · intro h
    simp only [get_active_tracks]
    rw [if_neg]
    simpa [List.isEmpty_iff] using h
  · intro h
    simp only [get_active_tracks]
    rw [if_pos]
    simpa [List.isEmpty_iff] using h
  · intro t ht
    simp only [get_active_tracks] at ht
    split at ht <;>
    · have hmem := (List.mem_filter.mp ht).2
      simp only [Bool.and_eq_true] at hmem
      exact hmem.2
  · simp only [get_active_tracks]
    split
    · exact List.filter_sublist tracks
    · exact List.filter_sublist tracks

/-- C1 witness: with track 2 soloed (and sourced) among three stored tracks,
the resolver returns exactly track 2, and every returned track has a source. -/
theorem c1_active_track_resolution_witness :
    get_active_tracks demoTracks = [demoTrack2] ∧
    (∀ t ∈ get_active_tracks demoTracks, truthySource t.source = true) := by
  have h := c1_active_track_resolution demoTracks
  refine ⟨?_, h.2.2.1⟩
  have h1 := h.1 (by
    simp [demoTracks, demoTrack1, demoTrack2, demoTrack3, truthySource])
  rw [h1]
  simp [demoTracks, demoTrack1, demoTrack2, demoTrack3, truthySource]

/-- C9: an effect whose name is outside the fixed catalog compiles to its name
as one literal token followed by each parameter value in insertion order,
stringified, with no key names, for any parameter count. -/
theorem c9_pass_through (name : String) (params : List (String × JVal))
    (rest : List Effect) (h : name ∉ catalogNames) :
    build_sox_effects (⟨name, params⟩ :: rest) =
      (name :: params.map (fun p => pyStr p.2)) ++ build_sox_effects rest := by
  simp only [catalogNames, List.mem_cons, List.not_mem_nil, or_false, not_or] at h
  obtain ⟨h1, h2, h3, h4, h5, h6, h7, h8, h9, h10, h11, h12, h13, h14, h15, h16, h17⟩ := h
  simp only [build_sox_effects, compile_effect,
    if_neg h1, if_neg h2, if_neg h3, if_neg h4, if_neg h5, if_neg h6, if_neg h7,
    if_neg h8, if_neg h9, if_neg h10, if_neg h11, if_neg h12, if_neg h13,
    if_neg h14, if_neg h15, if_neg h16, if_neg h17]

/-- C9 witness: the unknown effect name `riaa` with two parameters and with
zero parameters compiles to values-only pass-through tokens. -/
theorem c9_pass_through_witness :
    "riaa" ∉ catalogNames ∧
    build_sox_effects [⟨"riaa", [("a", .jnum "3"), ("b", .jstr "x")]⟩] =
      ["riaa", "3", "x"] ∧
    build_sox_effects [⟨"riaa", []⟩] = ["riaa"] := by
  refine ⟨by decide, ?_, ?_⟩
  · have h := c9_pass_through "riaa" [("a", .jnum "3"), ("b", .jstr "x")] [] (by decide)
    simpa [pyStr] using h
  · have h := c9_pass_through "riaa" [] [] (by decide)
    simpa using h

/-- C10: the render-to-file command always carries `vol str(volume)` right
after its input/output paths, even at unity volume, while the foreground
play-track and fx-preview commands carry `vol str(volume)` exactly when the
volume differs from 1.0; the compiled effect-chain suffix is identical in all
three. -/
theorem c10_unity_volume_asymmetry (t : Track) (chain : List Effect) (output : String) :
    render_track_to_file_cmd t chain output =
      ["sox", srcStr t.source, output, "vol", t.volume.str] ++ build_sox_effects chain ∧
    (t.volume.val = 1 →
      cmd_track_cmd t chain none none =
        ["play", srcStr t.source] ++ build_sox_effects chain ∧
      cmd_preview_cmd t chain =
        ["play", srcStr t.source] ++ build_sox_effects chain) ∧
    (t.volume.val ≠ 1 →
      cmd_track_cmd t chain none none =
        ["play", srcStr t.source, "vol", t.volume.str] ++ build_sox_effects chain ∧
      cmd_preview_cmd t chain =
        ["play", srcStr t.source, "vol", t.volume.str] ++ build_sox_effects chain) := by
  refine ⟨rfl, ?_, ?_⟩ <;> intro h <;>
    exact ⟨by simp [cmd_track_cmd, h], by simp [cmd_preview_cmd, h]⟩

/-- C10 witness: at unity volume the render command still carries
`vol 1.0` while play-track omits it; at volume 0.5 play-track carries
`vol 0.5`. -/
theorem c10_unity_volume_asymmetry_witness :
    render_track_to_file_cmd demoTrack1 [] "out.wav" =
      ["sox", "drums.wav", "out.wav", "vol", "1.0"] ∧
    cmd_track_cmd demoTrack1 [] none none = ["play", "drums.wav"] ∧
    cmd_track_cmd demoTrack2 [] none none = ["play", "bass.wav", "vol", "0.5"] := by
  have h1 := c10_unity_volume_asymmetry demoTrack1 [] "out.wav"
  have h2 := c10_unity_volume_asymmetry demoTrack2 [] "out.wav"
  refine ⟨by simpa using h1.1, ?_, ?_⟩
  · have := (h1.2.1 (by norm_num [demoTrack1])).1
    simpa using this
  · have := (h2.2.2 (by norm_num [demoTrack2])).1
    simpa using this

/-- Shared: when get_playback_pid reports no pid, the pid file is absent
afterwards (it was absent already, or the malformed/dead handle was
unlinked). -/
theorem get_playback_pid_none_state (s : Sys)
    (h : (get_playback_pid s).1 = none) :
    (get_playback_pid s).2.pidFile = none := by
  cases hf : s.pidFile with
  | none => simp [get_playback_pid, hf]
  | some text =>
    cases hp : pyInt (pyStrip text) with
    | none => simp [get_playback_pid, hf, hp]
    | some pid =>
      by_cases hpr : s.probeOk pid
      · simp [get_playback_pid, hf, hp, hpr] at h
      · simp [get_playback_pid, hf, hp, hpr]

/-- Shared: a state without a pid file is reported absent and left unchanged
by get_playback_pid. -/
theorem get_playback_pid_absent (s : Sys) (h : s.pidFile = none) :
    get_playback_pid s = (none, s) := by
  simp [get_playback_pid, h]

/-- Shared: cmd_stop always leaves the pid file absent. -/
theorem cmd_stop_run_clears (s : Sys) : (cmd_stop_run s).2.2.pidFile = none := by
  simp only [cmd_stop_run]
  cases h : (get_playback_pid s).1 with
  | none => simpa using get_playback_pid_none_state s h
  | some pid => simp

/-- Shared: stopping with no pid file reports "nothing playing", signals
nothing, and changes nothing. -/
theorem cmd_stop_run_absent (s : Sys) (h : s.pidFile = none) :
    cmd_stop_run s = (.nothingPlaying, [], s) := by
  simp [cmd_stop_run, get_playback_pid_absent s h]

/-- C5: cmd_loop on a sourced track first SIGTERMs and clears any live
persisted handle (doing nothing when none is live), then spawns
`play <source> repeat 999` detached, persists the new pid as the handle, and
reports that pid. -/
theorem c5_loop_in_background (s : Sys) (track : Track) (newPid : Int)
    (h : truthySource track.source = true) :
    (cmd_loop_track_run s track newPid).report = .looping newPid ∧
    (cmd_loop_track_run s track newPid).sys.pidFile = some (toString newPid) ∧
    (cmd_loop_track_run s track newPid).actions =
      (match (get_playback_pid s).1 with
       | some pid => [PAction.sigterm pid]
       | none => []) ++
      [.spawnLoop ["play", srcStr track.source, "repeat", "999"]] ∧
    ((get_playback_pid s).1 = none →
      (cmd_loop_track_run s track newPid).actions =
        [.spawnLoop ["play", srcStr track.source, "repeat", "999"]]) := by
  cases hr : (get_playback_pid s).1 with
  | none => simp [cmd_loop_track_run, hr, h]
  | some pid => simp [cmd_loop_track_run, hr, h]

/-- C5 witness: looping a sourced track from the idle state spawns the loop
player, persists pid 77, and reports it. -/
theorem c5_loop_in_background_witness :
    truthySource demoTrack1.source = true ∧
    (cmd_loop_track_run emptySys demoTrack1 77).report = .looping 77 ∧
    (cmd_loop_track_run emptySys demoTrack1 77).sys.pidFile = some "77" ∧
    (cmd_loop_track_run emptySys demoTrack1 77).actions =
      [.spawnLoop ["play", "drums.wav", "repeat", "999"]] := by
  have h := c5_loop_in_background emptySys demoTrack1 77 (by decide)
  refine ⟨by decide, h.1, ?_, ?_⟩
  · rw [h.2.1]
    rfl
  · have h4 := h.2.2.2 (by rfl)
    simpa [demoTrack1, srcStr] using h4

/-- C6: whenever the persisted handle is observed and the probe of its pid
fails (dead process, no permission) or the stored text is malformed, the pid
is reported absent, the handle file is deleted, and status reports idle;
status reports playing with the stored pid exactly when the probe succeeds. -/
theorem c6_stale_handle_purge (s : Sys) :
    (∀ text, s.pidFile = some text →
      ((∀ pid, pyInt (pyStrip text) = some pid → s.probeOk pid = false →
        (get_playback_pid s).1 = none ∧ (get_playback_pid s).2.pidFile = none ∧
        (cmd_status_run s).1 = .idle) ∧
      (pyInt (pyStrip text) = none →
        (get_playback_pid s).1 = none ∧ (get_playback_pid s).2.pidFile = none ∧
        (cmd_status_run s).1 = .idle))) ∧
    (∀ text pid, s.pidFile = some text → pyInt (pyStrip text) = some pid →
      s.probeOk pid = true →
      (cmd_status_run s).1 = .playing pid ∧
      (cmd_status_run s).2.pidFile = s.pidFile) := by
  constructor
  · intro text hfile
    constructor
    · intro pid hparse hprobe
      refine ⟨?_, ?_, ?_⟩ <;>
        simp [get_playback_pid, cmd_status_run, hfile, hparse, hprobe]
    · intro hparse
      refine ⟨?_, ?_, ?_⟩ <;>
        simp [get_playback_pid, cmd_status_run, hfile, hparse]
  · intro text pid hfile hparse hprobe
    constructor <;>
      simp [get_playback_pid, cmd_status_run, hfile, hparse, hprobe]

/-- C6 witness: a persisted handle "99" whose process is gone makes status
report idle and deletes the handle file. -/
theorem c6_stale_handle_purge_witness :
    staleSys.pidFile = some "99" ∧ pyInt (pyStrip "99") = some 99 ∧
    staleSys.probeOk 99 = false ∧
    (cmd_status_run staleSys).1 = .idle ∧
    (cmd_status_run staleSys).2.pidFile = none := by
  have h := ((c6_stale_handle_purge staleSys).1 "99" rfl).1 99 (by decide) rfl
  exact ⟨rfl, by decide, rfl, h.2.2, h.2.1⟩

/-- C7: with a live handle, stop SIGTERMs the pid, pkills its direct
children, clears the handle, and a following status reports idle; with no
live handle it reports "nothing playing" with no signalling and leaves the
handle absent; a second stop in a row is always the benign no-op. -/
theorem c7_stop_idempotent (s : Sys) :
    (∀ pid, (get_playback_pid s).1 = some pid →
      (cmd_stop_run s).1 = .stopped pid ∧
      (cmd_stop_run s).2.1 = [.sigterm pid, .pkillChildren pid] ∧
      (cmd_stop_run s).2.2.pidFile = none ∧
      (cmd_status_run (cmd_stop_run s).2.2).1 = .idle) ∧
    ((get_playback_pid s).1 = none →
      (cmd_stop_run s).1 = .nothingPlaying ∧
      (cmd_stop_run s).2.1 = [] ∧
      (cmd_stop_run s).2.2.pidFile = none) ∧
    ((cmd_stop_run (cmd_stop_run s).2.2).1 = .nothingPlaying ∧
      (cmd_stop_run (cmd_stop_run s).2.2).2.1 = []) := by
  refine ⟨?_, ?_, ?_⟩
  · intro pid hr
    refine ⟨?_, ?_, ?_, ?_⟩
    · simp [cmd_stop_run, hr]
    · simp [cmd_stop_run, hr]
    · simp [cmd_stop_run, hr]
    · simp only [cmd_stop_run, hr]
      simp [cmd_status_run, get_playback_pid]
  · intro hr
    have hstate := get_playback_pid_none_state s hr
    refine ⟨?_, ?_, ?_⟩ <;> simp [cmd_stop_run, hr, hstate]
  · have hclear := cmd_stop_run_clears s
    exact ⟨by rw [cmd_stop_run_absent _ hclear], by rw [cmd_stop_run_absent _ hclear]⟩

/-- C7 witness: stopping the live pid-42 handle signals 42 and its children,
clears the handle, status then reports idle, and a second stop reports
"nothing playing" with no signalling. -/
theorem c7_stop_idempotent_witness :
    (get_playback_pid liveSys).1 = some 42 ∧
    (cmd_stop_run liveSys).1 = .stopped 42 ∧
    (cmd_stop_run liveSys).2.1 = [.sigterm 42, .pkillChildren 42] ∧
    (cmd_status_run (cmd_stop_run liveSys).2.2).1 = .idle ∧
    (cmd_stop_run (cmd_stop_run liveSys).2.2).1 = .nothingPlaying := by
  have h := c7_stop_idempotent liveSys
  have h1 := h.1 42 (by decide)
  exact ⟨by decide, h1.1, h1.2.1, h1.2.2.2, h.2.2.1⟩

/-- Shared: a per-track temporary file lies under the temporary directory. -/
theorem underDir_tmpName (tmpdir : String) (t : Track) :
    underDir tmpdir (tmpName tmpdir t) = true := by
  simp only [underDir, tmpName, String.data_append, List.isPrefixOf_iff_prefix,
    List.append_assoc]
  exact List.prefix_append _ _

/-- Shared: every file the per-track render loop creates lies under the
temporary directory. -/
theorem render_stage_files_under (o : Oracle) (chains : Int → List Effect)
    (tmpdir : String) (l : List Track) :
    ∀ f ∈ (render_stage o chains tmpdir l).2.1, underDir tmpdir f = true := by
  induction l with
  | nil => simp [render_stage]
  | cons t rest ih =>
    intro f hf
    by_cases hok : o.ok (trackRenderInv chains t (tmpName tmpdir t)) = true
    · simp [render_stage, hok] at hf
      rcases hf with hmem | hmem
      · subst hmem
        exact underDir_tmpName tmpdir t
      · exact ih f hmem
    · simp only [Bool.not_eq_true] at hok
      simp [render_stage, hok] at hf
      rcases hf with ⟨-, hmem⟩
      subst hmem
      exact underDir_tmpName tmpdir t

/-- Shared: the TemporaryDirectory sweep removes every file the render loop
created, on every exit path. -/
theorem rmtreeSweep_render_stage (o : Oracle) (chains : Int → List Effect)
    (tmpdir : String) (l : List Track) :
    rmtreeSweep tmpdir (render_stage o chains tmpdir l).2.1 = [] := by
  rw [rmtreeSweep, List.filter_eq_nil_iff]
  intro f hf
  simp [render_stage_files_under o chains tmpdir l f hf]

/-- Shared: with an always-succeeding processor the render loop issues one
render per track, in order, and reports no failure. -/
theorem render_stage_all_ok (o : Oracle) (chains : Int → List Effect)
    (tmpdir : String) (l : List Track) (hok : ∀ i, o.ok i = true) :
    (render_stage o chains tmpdir l).1 =
      l.map (fun t => trackRenderInv chains t (tmpName tmpdir t)) ∧
    (render_stage o chains tmpdir l).2.2 = none := by
  induction l with
  | nil => simp [render_stage]
  | cons t rest ih => simp [render_stage, hok, ih.1, ih.2]

/-- Shared: every element of the per-track render plan is a render-track
invocation. -/
theorem filter_isRender_renders (chains : Int → List Effect) (tmpdir : String)
    (l : List Track) :
    (l.map (fun t => trackRenderInv chains t (tmpName tmpdir t))).filter
        SoxInv.isRender =
      l.map (fun t => trackRenderInv chains t (tmpName tmpdir t)) := by
  induction l with
  | nil => rfl
  | cons t rest ih => simp [trackRenderInv, SoxInv.isRender, ih]

/-- Shared: no element of the per-track render plan is a combine
invocation. -/
theorem filter_isCombine_renders (chains : Int → List Effect) (tmpdir : String)
    (l : List Track) :
    (l.map (fun t => trackRenderInv chains t (tmpName tmpdir t))).filter
        SoxInv.isCombine = [] := by
  induction l with
  | nil => rfl
  | cons t rest ih => simp [trackRenderInv, SoxInv.isCombine, ih]

/-- C2: with a succeeding processor, one active track yields exactly one
render-track invocation writing the final output and no combine; n >= 2
active tracks yield exactly one render-track invocation per active track in
storage order, each to its own temporary file, followed by exactly one
combine over all those temporary files into the final output. -/
theorem c2_render_invocation_counts (o : Oracle) (tracks : List Track)
    (chains : Int → List Effect) (tmpdir output : String) (no_play : Bool)
    (hok : ∀ i, o.ok i = true) :
    (∀ t, get_active_tracks tracks = [t] →
      (cmd_mix_run o tracks chains tmpdir output no_play).invs =
        trackRenderInv chains t output ::
          (if no_play then [] else [SoxInv.playFile output]) ∧
      (cmd_mix_run o tracks chains tmpdir output no_play).invs.filter
          SoxInv.isRender = [trackRenderInv chains t output] ∧
      (cmd_mix_run o tracks chains tmpdir output no_play).invs.filter
          SoxInv.isCombine = []) ∧
    (∀ t1 t2 rest, get_active_tracks tracks = t1 :: t2 :: rest →
      (cmd_mix_run o tracks chains tmpdir output no_play).invs =
        ((t1 :: t2 :: rest).map (fun t => trackRenderInv chains t (tmpName tmpdir t)) ++
          [SoxInv.combine ((t1 :: t2 :: rest).map (tmpName tmpdir)) output]) ++
          (if no_play then [] else [SoxInv.playFile output]) ∧
      (cmd_mix_run o tracks chains tmpdir output no_play).invs.filter
          SoxInv.isRender =
        (t1 :: t2 :: rest).map (fun t => trackRenderInv chains t (tmpName tmpdir t)) ∧
      (cmd_mix_run o tracks chains tmpdir output no_play).invs.filter
          SoxInv.isCombine =
        [SoxInv.combine ((t1 :: t2 :: rest).map (tmpName tmpdir)) output]) := by
  constructor
  · intro t hact
    have h1 : (cmd_mix_run o tracks chains tmpdir output no_play).invs =
        trackRenderInv chains t output ::
          (if no_play then [] else [SoxInv.playFile output]) := by
      simp [cmd_mix_run, hact, hok]
    refine ⟨h1, ?_, ?_⟩ <;> rw [h1] <;> cases no_play <;>
      simp [trackRenderInv, SoxInv.isRender, SoxInv.isCombine]
  · intro t1 t2 rest hact
    have hstage := render_stage_all_ok o chains tmpdir (t1 :: t2 :: rest) hok
    have h1 : (cmd_mix_run o tracks chains tmpdir output no_play).invs =
        ((t1 :: t2 :: rest).map (fun t => trackRenderInv chains t (tmpName tmpdir t)) ++
          [SoxInv.combine ((t1 :: t2 :: rest).map (tmpName tmpdir)) output]) ++
          (if no_play then [] else [SoxInv.playFile output]) := by
      simp [cmd_mix_run, hact, hstage.1, hstage.2, hok]
    refine ⟨h1, ?_, ?_⟩
    · rw [h1, List.filter_append, List.filter_append, filter_isRender_renders]
      cases no_play <;> simp [SoxInv.isRender]
    · rw [h1, List.filter_append, List.filter_append, filter_isCombine_renders]
      cases no_play <;> simp [SoxInv.isCombine]

/-- C2 witness: one active track gives the single direct render; three active
tracks give three per-track renders then one combine. -/
theorem c2_render_invocation_counts_witness :
    (∀ i, okOracle.ok i = true) ∧
    get_active_tracks singleActive = [demoTrack1] ∧
    (cmd_mix_run okOracle singleActive demoChains "/tmp/mixdir" "mix.wav" true).invs =
      [trackRenderInv demoChains demoTrack1 "mix.wav"] ∧
    get_active_tracks multiActive = [demoTrack1, demoTrack4, demoTrack5] ∧
    (cmd_mix_run okOracle multiActive demoChains "/tmp/mixdir" "mix.wav" true).invs =
      [trackRenderInv demoChains demoTrack1 (tmpName "/tmp/mixdir" demoTrack1),
       trackRenderInv demoChains demoTrack4 (tmpName "/tmp/mixdir" demoTrack4),
       trackRenderInv demoChains demoTrack5 (tmpName "/tmp/mixdir" demoTrack5),
       SoxInv.combine [tmpName "/tmp/mixdir" demoTrack1,
         tmpName "/tmp/mixdir" demoTrack4, tmpName "/tmp/mixdir" demoTrack5]
         "mix.wav"] := by
  have hs := (c2_render_invocation_counts okOracle singleActive demoChains
    "/tmp/mixdir" "mix.wav" true (fun _ => rfl)).1 demoTrack1 (by rfl)
  have hm := (c2_render_invocation_counts okOracle multiActive demoChains
    "/tmp/mixdir" "mix.wav" true (fun _ => rfl)).2 demoTrack1 demoTrack4
    [demoTrack5] (by rfl)
  refine ⟨fun _ => rfl, by rfl, ?_, by rfl, ?_⟩
  · simpa using hs.1
  · simpa using hm.1

/-- C3: on every input and every processor behavior — success, a per-track
render failure, or a combine failure — no pipeline-owned temporary file
remains once the render call returns. -/
theorem c3_tmp_cleanup (o : Oracle) (tracks : List Track)
    (chains : Int → List Effect) (tmpdir output : String) (no_play : Bool) :
    (cmd_mix_run o tracks chains tmpdir output no_play).tmpLeft = [] := by
  rcases hact : get_active_tracks tracks with _ | ⟨t, _ | ⟨t2, rest⟩⟩
  · simp [cmd_mix_run, hact]
  · by_cases hok : o.ok (trackRenderInv chains t output) = true
    · simp [cmd_mix_run, hact, hok]
    · simp only [Bool.not_eq_true] at hok
      simp [cmd_mix_run, hact, hok]
  · have hsweep := rmtreeSweep_render_stage o chains tmpdir (t :: t2 :: rest)
    cases hfail : (render_stage o chains tmpdir (t :: t2 :: rest)).2.2 with
    | some i0 => simp [cmd_mix_run, hact, hfail, hsweep]
    | none =>
      by_cases hc : o.ok (SoxInv.combine (tmpName tmpdir t :: tmpName tmpdir t2 ::
          List.map (tmpName tmpdir) rest) output) = true
      · simp [cmd_mix_run, hact, hfail, hc, hsweep]
      · simp only [Bool.not_eq_true] at hc
        simp [cmd_mix_run, hact, hfail, hc, hsweep]

/-- C8: when the resolver returns no active tracks, the mixdown fails with
the no-active-tracks error before issuing any invocation, and neither the
final output nor any temporary file is produced. -/
theorem c8_zero_active_tracks (o : Oracle) (tracks : List Track)
    (chains : Int → List Effect) (tmpdir output : String) (no_play : Bool)
    (h : get_active_tracks tracks = []) :
    (cmd_mix_run o tracks chains tmpdir output no_play).outcome = .noActive ∧
    (cmd_mix_run o tracks chains tmpdir output no_play).invs = [] ∧
    (cmd_mix_run o tracks chains tmpdir output no_play).finalFile = .untouched ∧
    (cmd_mix_run o tracks chains tmpdir output no_play).tmpLeft = [] := by
  refine ⟨?_, ?_, ?_, ?_⟩ <;> simp [cmd_mix_run, h]

/-- C8 witness: a project whose only track is muted and sourceless fails with
the no-active-tracks error, issues nothing and writes nothing. -/
theorem c8_zero_active_tracks_witness :
    get_active_tracks [demoTrack3] = [] ∧
    (cmd_mix_run okOracle [demoTrack3] demoChains "/tmp/mixdir" "mix.wav" true).outcome
      = .noActive ∧
    (cmd_mix_run okOracle [demoTrack3] demoChains "/tmp/mixdir" "mix.wav" true).invs
      = [] ∧
    (cmd_mix_run okOracle [demoTrack3] demoChains "/tmp/mixdir" "mix.wav" true).finalFile
      = .untouched := by
  have h := c8_zero_active_tracks okOracle [demoTrack3] demoChains "/tmp/mixdir"
    "mix.wav" true (by rfl)
  exact ⟨by rfl, h.1, h.2.1, h.2.2.1⟩

/-- C4 counterexample: with one active track and a processor that fails after
partially writing, the render targets the final path directly and leaves a
half-written file there — there is no scratch-location-plus-atomic-rename
step in the code. -/
theorem c4_atomic_output_counterexample :
    (cmd_mix_run crashOracle singleActive demoChains "/tmp/mixdir" "mix.wav" true).outcome =
      .renderFailed (trackRenderInv demoChains demoTrack1 "mix.wav") ∧
    (cmd_mix_run crashOracle singleActive demoChains "/tmp/mixdir" "mix.wav" true).finalFile =
      .halfWritten := by
  constructor <;> rfl

/-- C4 amended: the code writes the final path directly (no scratch-and-
rename), so a half-written file can remain at the final output path, but only
when the failing invocation is the one targeting the final path itself (the
single-track render or the combine); a per-track render failure in the
multi-track path leaves the final path untouched. -/
theorem c4_direct_write_partial_output (o : Oracle) (tracks : List Track)
    (chains : Int → List Effect) (tmpdir output : String) (no_play : Bool) :
    ((cmd_mix_run o tracks chains tmpdir output no_play).finalFile = .halfWritten →
      ∃ i, (cmd_mix_run o tracks chains tmpdir output no_play).outcome =
          .renderFailed i ∧ i.target = some output ∧ o.writes i = true) ∧
    (∀ i, (cmd_mix_run o tracks chains tmpdir output no_play).outcome =
        .renderFailed i → i.target ≠ some output →
      (cmd_mix_run o tracks chains tmpdir output no_play).finalFile = .untouched) := by
  rcases hact : get_active_tracks tracks with _ | ⟨t, _ | ⟨t2, rest⟩⟩
  · constructor
    · intro h
      simp [cmd_mix_run, hact] at h
    · intro i hi
      simp [cmd_mix_run, hact] at hi
  · by_cases hok : o.ok (trackRenderInv chains t output) = true
    · constructor
      · intro h
        simp [cmd_mix_run, hact, hok] at h
      · intro i hi
        simp [cmd_mix_run, hact, hok] at hi
    · simp only [Bool.not_eq_true] at hok
      constructor
      · intro h
        by_cases hw : o.writes (trackRenderInv chains t output) = true
        · refine ⟨trackRenderInv chains t output, ?_, rfl, hw⟩
          simp [cmd_mix_run, hact, hok]
        · simp only [Bool.not_eq_true] at hw
          simp [cmd_mix_run, hact, hok, hw] at h
      · intro i hi hne
        simp [cmd_mix_run, hact, hok] at hi
        subst hi
        exact absurd rfl hne
  · cases hfail : (render_stage o chains tmpdir (t :: t2 :: rest)).2.2 with
    | some i0 =>
      constructor
      · intro h
        simp [cmd_mix_run, hact, hfail] at h
      · intro i hi hne
        simp [cmd_mix_run, hact, hfail]
    | none =>
      by_cases hc : o.ok (SoxInv.combine (tmpName tmpdir t :: tmpName tmpdir t2 ::
          List.map (tmpName tmpdir) rest) output) = true
      · constructor
        · intro h
          simp [cmd_mix_run, hact, hfail, hc] at h
        · intro i hi
          simp [cmd_mix_run, hact, hfail, hc] at hi
      · simp only [Bool.not_eq_true] at hc
        constructor
        · intro h
          by_cases hw : o.writes (SoxInv.combine (tmpName tmpdir t ::
              tmpName tmpdir t2 :: List.map (tmpName tmpdir) rest) output) = true
          · refine ⟨SoxInv.combine (tmpName tmpdir t :: tmpName tmpdir t2 ::
              List.map (tmpName tmpdir) rest) output, ?_, rfl, hw⟩
            simp [cmd_mix_run, hact, hfail, hc]
          · simp only [Bool.not_eq_true] at hw
            simp [cmd_mix_run, hact, hfail, hc, hw] at h
        · intro i hi hne
          simp [cmd_mix_run, hact, hfail, hc] at hi
          subst hi
          exact absurd rfl hne

/-- C4 amended witness: the crashing single-track render leaves a partial
final file and is the invocation targeting the final path; a crashing
per-track render in the three-track mix leaves the final path untouched. -/
theorem c4_direct_write_partial_output_witness :
    (∃ i, (cmd_mix_run crashOracle singleActive demoChains "/tmp/mixdir" "mix.wav"
        true).outcome = .renderFailed i ∧ i.target = some "mix.wav" ∧
        crashOracle.writes i = true) ∧
    (cmd_mix_run crashOracle multiActive demoChains "/tmp/mixdir" "mix.wav"
        true).finalFile = .untouched := by
  constructor
  · exact (c4_direct_write_partial_output crashOracle singleActive demoChains
      "/tmp/mixdir" "mix.wav" true).1 (by rfl)
  · exact (c4_direct_write_partial_output crashOracle multiActive demoChains
      "/tmp/mixdir" "mix.wav" true).2
      (trackRenderInv demoChains demoTrack1 (tmpName "/tmp/mixdir" demoTrack1))
      (by rfl) (by decide)
